import Mathlib

set_option autoImplicit false

/-!
Verification development for the ITIRP trading platform
(`itirp_complete.py`).  The Python source is shallowly embedded: mutable
engine state becomes explicit state passing, `float` quantities become `ℚ`,
`datetime.utcnow().date()` becomes an explicit UTC day index parameter, and
raised `HTTPException` / `ValueError` become `Except`-style results.  Event
appends to the `EventStore` are modelled by returning the list of event
types appended during the call.  Every definition is translated from the
source functions named in its doc comment.
-/

namespace ITIRP

/-- Enum `OrderSide` from the source. -/
inductive OrderSide where
  | BUY
  | SELL
deriving DecidableEq, Repr

/-- Enum `OrderStatus` from the source. -/
inductive OrderStatus where
  | PENDING
  | RISK_CHECK
  | APPROVED
  | REJECTED
  | EXECUTING
  | EXECUTED
  | FAILED
  | CANCELLED
deriving DecidableEq, Repr

/-- Enum `EventType` from the source. -/
inductive EventType where
  | ORDER_CREATED
  | RISK_CHECK_STARTED
  | RISK_CHECK_PASSED
  | RISK_CHECK_FAILED
  | EXECUTION_STARTED
  | EXECUTION_COMPLETED
  | EXECUTION_FAILED
  | ORDER_CANCELLED
deriving DecidableEq, Repr

/-- Enum `RiskViolationType` from the source. -/
inductive RiskViolationType where
  | POSITION_LIMIT
  | DAILY_VOLUME_LIMIT
  | NET_EXPOSURE_LIMIT
  | GROSS_EXPOSURE_LIMIT
  | KILL_SWITCH_ACTIVE
deriving DecidableEq, Repr

/-- The `.value` of a `RiskViolationType` member (the Python `str` enum value). -/
def RiskViolationType.value : RiskViolationType → String
  | .POSITION_LIMIT => "POSITION_LIMIT"
  | .DAILY_VOLUME_LIMIT => "DAILY_VOLUME_LIMIT"
  | .NET_EXPOSURE_LIMIT => "NET_EXPOSURE_LIMIT"
  | .GROSS_EXPOSURE_LIMIT => "GROSS_EXPOSURE_LIMIT"
  | .KILL_SWITCH_ACTIVE => "KILL_SWITCH_ACTIVE"

/-- Dataclass `Order` from the source (the `created_at` wall-clock timestamp
is omitted; no modelled computation reads it). -/
structure Order where
  order_id : String
  correlation_id : String
  symbol : String
  side : OrderSide
  quantity : ℚ
  price : ℚ
  strategy : String
  status : OrderStatus
  user_id : String
  client_order_id : Option String := none
  executed_quantity : ℚ := 0
  executed_price : Option ℚ := none
  rejection_reason : Option String := none
  retry_count : Nat := 0
deriving DecidableEq, Repr

/-- Method `Order.notional_value` from the source. -/
def Order.notional_value (o : Order) : ℚ :=
  o.quantity * o.price

/-- Dataclass `Position` from the source. -/
structure Position where
  symbol : String
  quantity : ℚ
  average_price : ℚ
  realized_pnl : ℚ := 0
deriving DecidableEq, Repr

/-- Pydantic model `RiskLimitsConfig` from the source. -/
structure RiskLimitsConfig where
  max_position_size : ℚ
  max_daily_volume : ℚ
  max_net_exposure : ℚ
  max_gross_exposure : ℚ
  kill_switch_enabled : Bool
deriving DecidableEq, Repr

/-- Dataclass `RiskCheckResult` from the source. -/
structure RiskCheckResult where
  passed : Bool
  violations : List RiskViolationType
  message : String
deriving DecidableEq, Repr

/-- Pydantic model `RiskMetrics` from the source. -/
structure RiskMetrics where
  net_exposure : ℚ
  gross_exposure : ℚ
  daily_volume : ℚ
  total_positions : Nat
  largest_position : ℚ
  kill_switch_active : Bool
deriving DecidableEq, Repr

/-- The mutable state of `RiskEngine`: its `config`, the `positions` dict
(an insertion-ordered association list, as a Python dict), the
`daily_volume` accumulator and the `daily_volume_reset` marker (kept as a
UTC day index, standing for `datetime.date`). -/
structure RiskState where
  config : RiskLimitsConfig
  positions : List (String × Position)
  daily_volume : ℚ
  daily_volume_reset : Int
deriving DecidableEq, Repr

/-- Dict lookup `positions[symbol]` / `symbol in positions`. -/
def lookupPos : List (String × Position) → String → Option Position
  | [], _ => none
  | kv :: t, sym => if kv.1 = sym then some kv.2 else lookupPos t sym

/-- Dict assignment `positions[symbol] = p` for a key already present
(Python keeps the key's insertion position). -/
def setPos (ps : List (String × Position)) (sym : String) (p : Position) :
    List (String × Position) :=
  ps.map (fun kv => if kv.1 = sym then (kv.1, p) else kv)

/-- Method `RiskEngine._calculate_net_exposure`: `sum(p.quantity * p.average_price
for p in positions.values())`. -/
def netExposure (ps : List (String × Position)) : ℚ :=
  (ps.map (fun kv => kv.2.quantity * kv.2.average_price)).sum

/-- Method `RiskEngine._calculate_gross_exposure`: `sum(abs(p.quantity *
p.average_price) for p in positions.values())`. -/
def grossExposure (ps : List (String × Position)) : ℚ :=
  (ps.map (fun kv => abs (kv.2.quantity * kv.2.average_price))).sum

/-- Method `RiskEngine._calculate_projected_positions`.  The source does
`projected = self.positions.copy()` — a **shallow** copy, so the `Position`
objects are shared with `self.positions` — and then mutates
`projected[order.symbol].quantity` in place.  Consequently, when the symbol
already has a position, that very object (still referenced from
`self.positions`) is mutated; when the symbol is new, a fresh `Position`
is placed only in the copy.  The function therefore returns a pair:
the resulting `self.positions` contents, and the projected dict contents. -/
def calcProjectedPositions (ps : List (String × Position)) (o : Order) :
    List (String × Position) × List (String × Position) :=
  let quantity_delta : ℚ := if o.side = OrderSide.BUY then o.quantity else -o.quantity
  match lookupPos ps o.symbol with
  | some p =>
    let shared := setPos ps o.symbol { p with quantity := p.quantity + quantity_delta }
    (shared, shared)
  | none =>
    (ps, ps ++ [(o.symbol, { symbol := o.symbol, quantity := quantity_delta,
                             average_price := 0, realized_pnl := 0 })])

/-- Method `RiskEngine._reset_daily_volume_if_needed`, with `now.date()` passed in
as the UTC day index `today`. -/
def resetDailyVolumeIfNeeded (s : RiskState) (today : Int) : RiskState :=
  if s.daily_volume_reset < today then
    { s with daily_volume := 0, daily_volume_reset := today }
  else
    s

/-- Result of `RiskEngine.check_order`: the engine state after the call,
the returned `RiskCheckResult`, and the event types appended to the event
store during the call, in append order. -/
structure CheckOutcome where
  state : RiskState
  result : RiskCheckResult
  events : List EventType
deriving DecidableEq, Repr

/-- Method `RiskEngine.check_order`.  Appends `RISK_CHECK_STARTED`, short-circuits
on the kill switch (returning without a result event), otherwise evaluates
the four limit checks, appends the result event and builds the message.
The state component records the in-place mutation of `self.positions`
performed through the shallow copy in `_calculate_projected_positions`. -/
def checkOrder (s : RiskState) (o : Order) (today : Int) : CheckOutcome :=
  let s0 := resetDailyVolumeIfNeeded s today
  if s0.config.kill_switch_enabled then
    { state := s0,
      result := { passed := false,
                  violations := [RiskViolationType.KILL_SWITCH_ACTIVE],
                  message := "Kill switch is active - all trading halted" },
      events := [EventType.RISK_CHECK_STARTED] }
  else
    let notional := o.notional_value
    let v1 := if s0.config.max_position_size < notional
      then [RiskViolationType.POSITION_LIMIT] else []
    let v2 := if s0.config.max_daily_volume < s0.daily_volume + notional
      then [RiskViolationType.DAILY_VOLUME_LIMIT] else []
    let proj := calcProjectedPositions s0.positions o
    let net := netExposure proj.2
    let gross := grossExposure proj.2
    let v3 := if s0.config.max_net_exposure < abs net
      then [RiskViolationType.NET_EXPOSURE_LIMIT] else []
    let v4 := if s0.config.max_gross_exposure < gross
      then [RiskViolationType.GROSS_EXPOSURE_LIMIT] else []
    let violations := v1 ++ v2 ++ v3 ++ v4
    let passed := violations.isEmpty
    let resultEvent := if passed then EventType.RISK_CHECK_PASSED
      else EventType.RISK_CHECK_FAILED
    let message := if passed then "Risk check passed"
      else "Risk violations: " ++ String.intercalate ", "
        (violations.map RiskViolationType.value)
    { state := { s0 with positions := proj.1 },
      result := { passed := passed, violations := violations, message := message },
      events := [EventType.RISK_CHECK_STARTED, resultEvent] }

/-- The local `quantity_delta` of `RiskEngine.update_position`:
`order.executed_quantity if order.side == OrderSide.BUY else
-order.executed_quantity`. -/
def quantityDelta (o : Order) : ℚ :=
  if o.side = OrderSide.BUY then o.executed_quantity else -o.executed_quantity

/-- The position `update_position` starts from: the stored position for the
order's symbol, or the fresh flat `Position` the source creates when the
symbol is absent. -/
def currentPosition (s : RiskState) (o : Order) : Position :=
  (lookupPos s.positions o.symbol).getD
    { symbol := o.symbol, quantity := 0, average_price := 0, realized_pnl := 0 }

/-- Method `RiskEngine.update_position`.  A missing `executed_price` would be a
`TypeError` in the source; the execution pipeline always sets it before
calling, and the claims only concern executed orders, so it is read with
`Option.getD 0`. -/
def updatePosition (s : RiskState) (o : Order) : RiskState :=
  let ps := match lookupPos s.positions o.symbol with
    | none => s.positions ++ [(o.symbol, { symbol := o.symbol, quantity := 0,
                                           average_price := 0, realized_pnl := 0 })]
    | some _ => s.positions
  let position := (lookupPos ps o.symbol).getD
    { symbol := o.symbol, quantity := 0, average_price := 0, realized_pnl := 0 }
  let quantity_delta : ℚ := quantityDelta o
  let position' :=
    if position.quantity + quantity_delta ≠ 0 then
      let total_cost := position.quantity * position.average_price +
        quantity_delta * (o.executed_price.getD 0)
      { position with quantity := position.quantity + quantity_delta,
                      average_price := total_cost / (position.quantity + quantity_delta) }
    else
      { position with quantity := 0, average_price := 0 }
  { s with positions := setPos ps o.symbol position',
           daily_volume := s.daily_volume + o.notional_value }

/-- Method `RiskEngine.get_metrics` (state after the call and the returned
snapshot). -/
def getMetrics (s : RiskState) (today : Int) : RiskState × RiskMetrics :=
  let s0 := resetDailyVolumeIfNeeded s today
  let largest := ((s0.positions.map
    (fun kv => abs (kv.2.quantity * kv.2.average_price))).foldl max 0)
  (s0,
   { net_exposure := netExposure s0.positions,
     gross_exposure := grossExposure s0.positions,
     daily_volume := s0.daily_volume,
     total_positions := s0.positions.length,
     largest_position := largest,
     kill_switch_active := s0.config.kill_switch_enabled })

/-- The projection of positions as the spec describes it for the exposure
checks: for the order's symbol add `+quantity` if BUY else `-quantity`,
other symbols unchanged, each at its current `average_price`, a new symbol
at price 0.  Stated from the spec's words, to be compared with the
projected dict computed by `calcProjectedPositions`. -/
def projectedPositionsSpec (ps : List (String × Position)) (o : Order) :
    List (String × Position) :=
  let delta : ℚ := if o.side = OrderSide.BUY then o.quantity else -o.quantity
  match lookupPos ps o.symbol with
  | some p => setPos ps o.symbol { p with quantity := p.quantity + delta }
  | none => ps ++ [(o.symbol, { symbol := o.symbol, quantity := delta,
                                average_price := 0, realized_pnl := 0 })]

/-- The violation list accumulated by `check_order` when the kill switch is
disabled, in the source's evaluation order (position size, daily volume,
net exposure, gross exposure, each over the reset state and the projected
dict). -/
def checkViolations (s : RiskState) (o : Order) (d : Int) : List RiskViolationType :=
  let s0 := resetDailyVolumeIfNeeded s d
  (if s0.config.max_position_size < o.notional_value
    then [RiskViolationType.POSITION_LIMIT] else []) ++
  (if s0.config.max_daily_volume < s0.daily_volume + o.notional_value
    then [RiskViolationType.DAILY_VOLUME_LIMIT] else []) ++
  (if s0.config.max_net_exposure < abs (netExposure (calcProjectedPositions s0.positions o).2)
    then [RiskViolationType.NET_EXPOSURE_LIMIT] else []) ++
  (if s0.config.max_gross_exposure < grossExposure (calcProjectedPositions s0.positions o).2
    then [RiskViolationType.GROSS_EXPOSURE_LIMIT] else [])

/-- Pydantic model `OrderRequest` from the source (validation constraints
are enforced by the HTTP layer before the engine sees the request). -/
structure OrderRequest where
  symbol : String
  side : OrderSide
  quantity : ℚ
  price : ℚ
  strategy : String
  client_order_id : Option String
deriving DecidableEq, Repr

/-- Pydantic model `OrderResponse` from the source (the wall-clock
`timestamp` field is omitted). -/
structure OrderResponse where
  order_id : String
  status : OrderStatus
  correlation_id : String
  message : Option String
deriving DecidableEq, Repr

/-- The circuit-breaker fields of `ExecutionEngine`:
`circuit_breaker_failures` and `circuit_breaker_open_until` (the latter as
epoch seconds). -/
structure BreakerState where
  failures : Nat
  openUntil : Option Int
deriving DecidableEq, Repr

/-- The mutable state of `ExecutionEngine`: the `orders` table (insertion
order, keyed by `order_id`), the `execution_keys` idempotency set, and the
circuit breaker. -/
structure ExecState where
  orders : List Order
  execution_keys : List String
  breaker : BreakerState
deriving DecidableEq, Repr

/-- Method `ExecutionEngine._generate_execution_key`: the source hashes
`f"{user_id}:{symbol}:{side}:{quantity}:{price}:{client_order_id}"` with
sha256.  The hash is modelled by the key-data string itself: sha256 is
deterministic, so equal field tuples give equal keys, which is the only
property the engine relies on (collisions are assumed away). -/
def generateExecutionKey (req : OrderRequest) (user_id : String) : String :=
  user_id ++ ":" ++ req.symbol ++ ":" ++
    (match req.side with | OrderSide.BUY => "BUY" | OrderSide.SELL => "SELL") ++ ":" ++
    toString req.quantity ++ ":" ++ toString req.price ++ ":" ++
    (match req.client_order_id with | none => "None" | some c => c)

/-- The `Order(...)` construction inside `ExecutionEngine.submit_order`
(state `PENDING`, fresh `order_id` and `correlation_id` passed in for the
source's `uuid.uuid4()` calls). -/
def mkOrder (req : OrderRequest) (uid oid cid : String) : Order :=
  { order_id := oid, correlation_id := cid, symbol := req.symbol, side := req.side,
    quantity := req.quantity, price := req.price, strategy := req.strategy,
    status := OrderStatus.PENDING, user_id := uid,
    client_order_id := req.client_order_id }

/-- Result of `ExecutionEngine.submit_order`: engine state, risk-engine
state, the event types appended to the event store during the call, and the
HTTP result (`Except.error ()` models the 409 `HTTPException` for a
duplicate submission). -/
structure SubmitOutcome where
  exec : ExecState
  risk : RiskState
  events : List EventType
  response : Except Unit OrderResponse
deriving Repr

/-- Method `ExecutionEngine.submit_order` up to the synchronous reply: idempotency
gate, order creation, `ORDER_CREATED` event, risk check, and the
`REJECTED`/`APPROVED` reply.  The Python order dict holds a reference to
the mutated order object, so the table entry carries the order's status at
reply time.  The spawned background task (`_execute_order`) is modelled
separately by `executeOrder`. -/
def submitOrder (st : ExecState) (risk : RiskState) (req : OrderRequest)
    (uid oid cid : String) (today : Int) : SubmitOutcome :=
  let key := generateExecutionKey req uid
  if key ∈ st.execution_keys then
    { exec := st, risk := risk, events := [], response := Except.error () }
  else
    let st1 := { st with execution_keys := key :: st.execution_keys }
    let orderRC := { mkOrder req uid oid cid with status := OrderStatus.RISK_CHECK }
    let chk := checkOrder risk orderRC today
    if chk.result.passed then
      { exec := { st1 with orders := st1.orders ++
          [{ orderRC with status := OrderStatus.APPROVED }] },
        risk := chk.state,
        events := EventType.ORDER_CREATED :: chk.events,
        response := Except.ok { order_id := oid, status := OrderStatus.APPROVED,
                                correlation_id := cid,
                                message := some "Order approved and submitted for execution" } }
    else
      { exec := { st1 with orders := st1.orders ++
          [{ orderRC with status := OrderStatus.REJECTED,
                          rejection_reason := some chk.result.message }] },
        risk := chk.state,
        events := EventType.ORDER_CREATED :: chk.events,
        response := Except.ok { order_id := oid, status := OrderStatus.REJECTED,
                                correlation_id := cid,
                                message := some chk.result.message } }

/-- Number of stored orders carrying a given submission fingerprint
`(user_id, symbol, side, quantity, price, client_order_id)`. -/
def countFingerprint (orders : List Order) (req : OrderRequest) (uid : String) : Nat :=
  (orders.filter (fun o => decide (o.user_id = uid ∧ o.symbol = req.symbol ∧
    o.side = req.side ∧ o.quantity = req.quantity ∧ o.price = req.price ∧
    o.client_order_id = req.client_order_id))).length

/-- Constant `MAX_RETRY_ATTEMPTS` from the source. -/
def MAX_RETRY_ATTEMPTS : Nat := 3

/-- Constant `CIRCUIT_BREAKER_THRESHOLD` from the source. -/
def CIRCUIT_BREAKER_THRESHOLD : Nat := 5

/-- Constant `CIRCUIT_BREAKER_TIMEOUT` from the source (seconds). -/
def CIRCUIT_BREAKER_TIMEOUT : Int := 60

/-- Result of `ExecutionEngine._execute_order`: breaker state, risk-engine
state, the mutated order, and the event types appended during the call. -/
structure ExecOutcome where
  breaker : BreakerState
  risk : RiskState
  order : Order
  events : List EventType
deriving DecidableEq, Repr

/-- The retry loop `for attempt in range(MAX_RETRY_ATTEMPTS)` of
`_execute_order`, over the list of remaining attempt indices.  The
simulated venue (`random.random() < 0.9`) is the per-attempt outcome
oracle `f`, and the price jitter `random.uniform(-0.001, 0.001)` is the
parameter `j` — both are the injectable test seams the spec mandates.
Sleeps (latency and exponential backoff) have no observable effect in the
model. -/
def runAttempts (f : Nat → Bool) (j : ℚ) (now : Int) :
    List Nat → BreakerState → RiskState → Order → ExecOutcome
  | [], b, r, o => { breaker := b, risk := r, order := o, events := [] }
  | attempt :: rest, b, r, o =>
    if f attempt then
      let o1 := { o with executed_quantity := o.quantity,
                         executed_price := some (o.price * (1 + j)),
                         status := OrderStatus.EXECUTED }
      { breaker := b, risk := updatePosition r o1, order := o1,
        events := [EventType.EXECUTION_COMPLETED] }
    else
      let o1 := { o with retry_count := o.retry_count + 1 }
      if rest.isEmpty then
        let b1 := { b with failures := b.failures + 1 }
        let b2 := if CIRCUIT_BREAKER_THRESHOLD ≤ b1.failures then
            { b1 with openUntil := some (now + CIRCUIT_BREAKER_TIMEOUT) }
          else b1
        { breaker := b2, risk := r,
          order := { o1 with status := OrderStatus.FAILED,
                             rejection_reason := some "Execution failed after 3 attempts" },
          events := [EventType.EXECUTION_FAILED] }
      else
        runAttempts f j now rest b r o1

/-- The body of `_execute_order` after circuit-breaker admission:
transition to `EXECUTING`, append `EXECUTION_STARTED`, run the retry
loop. -/
def execBody (b : BreakerState) (r : RiskState) (o : Order) (now : Int)
    (f : Nat → Bool) (j : ℚ) : ExecOutcome :=
  let out := runAttempts f j now (List.range MAX_RETRY_ATTEMPTS) b r
    { o with status := OrderStatus.EXECUTING }
  { out with events := EventType.EXECUTION_STARTED :: out.events }

/-- Method `ExecutionEngine._execute_order`: circuit-breaker admission (block
while open and `now < open_until`; reset the breaker when the timeout has
elapsed), then the execution body.  `now` stands for
`datetime.utcnow()` in epoch seconds. -/
def executeOrder (b : BreakerState) (r : RiskState) (o : Order) (now : Int)
    (f : Nat → Bool) (j : ℚ) : ExecOutcome :=
  match b.openUntil with
  | some t =>
    if now < t then
      { breaker := b, risk := r,
        order := { o with status := OrderStatus.FAILED,
                          rejection_reason := some "Circuit breaker open" },
        events := [] }
    else
      execBody { failures := 0, openUntil := none } r o now f j
  | none => execBody b r o now f j

/-- Enum `UserRole` from the source. -/
inductive UserRole where
  | TRADER
  | RISK_MANAGER
  | COMPLIANCE
  | ADMIN
deriving DecidableEq, Repr

/-- The `UserRole(user_role)` enum conversion inside
`AuthManager.check_permission`: `none` models the `ValueError` raised for a
string outside the four member values (and for a missing/`None` role
claim). -/
def userRoleOfString : Option String → Option UserRole
  | some "TRADER" => some UserRole.TRADER
  | some "RISK_MANAGER" => some UserRole.RISK_MANAGER
  | some "COMPLIANCE" => some UserRole.COMPLIANCE
  | some "ADMIN" => some UserRole.ADMIN
  | _ => none

/-- The `role_hierarchy` dict literal of `AuthManager.check_permission`. -/
def roleHierarchy : List (UserRole × Nat) :=
  [(UserRole.TRADER, 1), (UserRole.RISK_MANAGER, 2),
   (UserRole.COMPLIANCE, 3), (UserRole.ADMIN, 4)]

/-- Python `dict.get(key, 0)` on `role_hierarchy`. -/
def roleLevel (r : UserRole) : Option Nat :=
  (roleHierarchy.find? (fun kv => decide (kv.1 = r))).map (fun kv => kv.2)

/-- Method `AuthManager.check_permission`.  `Except.error ()` models the uncaught
`ValueError` raised by the `UserRole(user_role)` conversion; otherwise the
source returns `user_level >= required_level` with both levels read via
`role_hierarchy.get(_, 0)`. -/
def checkPermission (user_role : Option String) (required_role : UserRole) :
    Except Unit Bool :=
  match userRoleOfString user_role with
  | none => Except.error ()
  | some ur =>
    let user_level := (roleLevel ur).getD 0
    let required_level := (roleLevel required_role).getD 0
    Except.ok (decide (required_level ≤ user_level))

/-! Concrete sample inputs used by the closed theorems below. -/

/-- Default risk limits (`RiskLimitsConfig` defaults), kill switch off. -/
def cfgDefault : RiskLimitsConfig :=
  { max_position_size := 1000000, max_daily_volume := 10000000,
    max_net_exposure := 5000000, max_gross_exposure := 15000000,
    kill_switch_enabled := false }

/-- C1 sample state: one existing AAPL position of 100 shares at 10. -/
def sC1 : RiskState :=
  { config := cfgDefault,
    positions := [("AAPL", { symbol := "AAPL", quantity := 100, average_price := 10 })],
    daily_volume := 0, daily_volume_reset := 0 }

/-- C1 sample order: BUY 50 AAPL at limit price 20. -/
def oC1 : Order :=
  { order_id := "o-c1", correlation_id := "cid-c1", symbol := "AAPL",
    side := OrderSide.BUY, quantity := 50, price := 20, strategy := "default",
    status := OrderStatus.RISK_CHECK, user_id := "u1" }

/-- C2 sample state: kill switch enabled. -/
def sC2 : RiskState :=
  { config := { cfgDefault with kill_switch_enabled := true },
    positions := [], daily_volume := 0, daily_volume_reset := 0 }

/-- C2 sample order. -/
def oC2 : Order :=
  { order_id := "o-c2", correlation_id := "cid-c2", symbol := "GOOGL",
    side := OrderSide.BUY, quantity := 10, price := 100, strategy := "default",
    status := OrderStatus.RISK_CHECK, user_id := "u1" }

/-- C2/C3/C7 witness state with the kill switch off and empty positions. -/
def sOff : RiskState :=
  { config := cfgDefault, positions := [], daily_volume := 0, daily_volume_reset := 0 }

/-- C4 sample request. -/
def reqC4 : OrderRequest :=
  { symbol := "MSFT", side := OrderSide.BUY, quantity := 50, price := 300,
    strategy := "test", client_order_id := some "unique-test-123" }

/-- C4 sample initial execution-engine state: empty tables. -/
def stC4 : ExecState :=
  { orders := [], execution_keys := [], breaker := { failures := 0, openUntil := none } }

/-- C5 sample order. -/
def oC5 : Order :=
  { order_id := "o-c5", correlation_id := "cid-c5", symbol := "AAPL",
    side := OrderSide.BUY, quantity := 100, price := 175 + 1/2, strategy := "default",
    status := OrderStatus.APPROVED, user_id := "u1" }

/-- C6 sample order: SELL with an executed fill. -/
def oC6 : Order :=
  { order_id := "o-c6", correlation_id := "cid-c6", symbol := "AAPL",
    side := OrderSide.SELL, quantity := 40, price := 12, strategy := "default",
    status := OrderStatus.EXECUTED, user_id := "u1",
    executed_quantity := 40, executed_price := some 12 }

/-- C8 sample state: accumulated volume 5 with reset marker at day 0. -/
def sC8 : RiskState :=
  { config := cfgDefault, positions := [], daily_volume := 5, daily_volume_reset := 0 }

/-- C8 sample executed order: notional 2 x 3 = 6. -/
def oC8 : Order :=
  { order_id := "o-c8", correlation_id := "cid-c8", symbol := "IBM",
    side := OrderSide.BUY, quantity := 2, price := 3, strategy := "default",
    status := OrderStatus.EXECUTED, user_id := "u1",
    executed_quantity := 2, executed_price := some 3 }

/-- C9 sample state: tiny position limit so that exactly `POSITION_LIMIT`
fires. -/
def sC9 : RiskState :=
  { config := { max_position_size := 10, max_daily_volume := 1000000,
                max_net_exposure := 1000000, max_gross_exposure := 1000000,
                kill_switch_enabled := false },
    positions := [], daily_volume := 0, daily_volume_reset := 0 }

/-- C9 sample request with notional 12 > 10. -/
def reqC9 : OrderRequest :=
  { symbol := "TSLA", side := OrderSide.BUY, quantity := 3, price := 4,
    strategy := "default", client_order_id := none }

/-- C9 sample order with notional 12 > 10. -/
def oC9 : Order :=
  { order_id := "o-c9", correlation_id := "cid-c9", symbol := "TSLA",
    side := OrderSide.BUY, quantity := 3, price := 4, strategy := "default",
    status := OrderStatus.RISK_CHECK, user_id := "u1" }

/-!  Theorems.  Shared helper lemmas first, then one theorem per claim
(with its witness or counterexample where required). -/

/-- The daily-volume reset never touches the limits configuration. -/
theorem resetDaily_config (s : RiskState) (d : Int) :
    (resetDailyVolumeIfNeeded s d).config = s.config := by
  unfold resetDailyVolumeIfNeeded
  split <;> rfl

/-- The daily-volume reset never touches the positions map. -/
theorem resetDaily_positions (s : RiskState) (d : Int) :
    (resetDailyVolumeIfNeeded s d).positions = s.positions := by
  unfold resetDailyVolumeIfNeeded
  split <;> rfl

/-- Value of `daily_volume` after the reset check. -/
theorem resetDaily_daily_volume (s : RiskState) (d : Int) :
    (resetDailyVolumeIfNeeded s d).daily_volume =
      if s.daily_volume_reset < d then 0 else s.daily_volume := by
  unfold resetDailyVolumeIfNeeded
  split <;> rfl

/-- Method `check_order` with the kill switch enabled: full characterisation. -/
theorem checkOrder_kill_eq (s : RiskState) (o : Order) (d : Int)
    (h : s.config.kill_switch_enabled = true) :
    checkOrder s o d =
      { state := resetDailyVolumeIfNeeded s d,
        result := { passed := false,
                    violations := [RiskViolationType.KILL_SWITCH_ACTIVE],
                    message := "Kill switch is active - all trading halted" },
        events := [EventType.RISK_CHECK_STARTED] } := by
  simp [checkOrder, resetDaily_config, h]

/-- Method `check_order` with the kill switch disabled: full characterisation in
terms of `checkViolations`. -/
theorem checkOrder_off_eq (s : RiskState) (o : Order) (d : Int)
    (h : s.config.kill_switch_enabled = false) :
    checkOrder s o d =
      { state := { resetDailyVolumeIfNeeded s d with
                   positions := (calcProjectedPositions
                     (resetDailyVolumeIfNeeded s d).positions o).1 },
        result := { passed := (checkViolations s o d).isEmpty,
                    violations := checkViolations s o d,
                    message := if (checkViolations s o d).isEmpty then "Risk check passed"
                      else "Risk violations: " ++ String.intercalate ", "
                        ((checkViolations s o d).map RiskViolationType.value) },
        events := [EventType.RISK_CHECK_STARTED,
          if (checkViolations s o d).isEmpty then EventType.RISK_CHECK_PASSED
          else EventType.RISK_CHECK_FAILED] } := by
  simp [checkOrder, checkViolations, resetDaily_config, h]

/-- C1 (status: code_bug).  The claim says `check_order` only *projects*
positions and leaves the engine's positions map untouched.  The source's
`_calculate_projected_positions` takes a shallow `dict.copy()`, so for a
symbol that already has a position it mutates the stored `Position` object
in place.  Evaluating the embedded code at the failing input: an existing
AAPL position of 100 shares becomes 150 shares after a mere risk check of
a BUY 50 order (which passes), with no fill having happened. -/
theorem c1_check_order_mutates_existing_position :
    sC1.positions =
      [("AAPL", { symbol := "AAPL", quantity := 100, average_price := 10,
                  realized_pnl := 0 })] ∧
    (checkOrder sC1 oC1 0).state.positions =
      [("AAPL", { symbol := "AAPL", quantity := 150, average_price := 10,
                  realized_pnl := 0 })] ∧
    (checkOrder sC1 oC1 0).result.passed = true := by
  refine ⟨rfl, ?_, ?_⟩ <;>
    norm_num [checkOrder, sC1, oC1, cfgDefault, resetDailyVolumeIfNeeded,
      calcProjectedPositions, lookupPos, setPos, netExposure, grossExposure,
      Order.notional_value, List.find?]

/-- C2 (status: corrected), counterexample.  With the kill switch enabled,
`check_order` returns right after appending `RISK_CHECK_STARTED`: no
`RISK_CHECK_FAILED` (or `_PASSED`) event is appended, so the claimed
per-order count equality fails for kill-switch rejections. -/
theorem c2_counterexample :
    (checkOrder sC2 oC2 0).events = [EventType.RISK_CHECK_STARTED] ∧
    ¬ ((checkOrder sC2 oC2 0).events.count EventType.RISK_CHECK_STARTED =
       (checkOrder sC2 oC2 0).events.count EventType.RISK_CHECK_PASSED +
       (checkOrder sC2 oC2 0).events.count EventType.RISK_CHECK_FAILED) := by
  have h := checkOrder_kill_eq sC2 oC2 0 rfl
  rw [h]
  refine ⟨rfl, by decide⟩

/-- C2 (status: corrected), amended claim: whenever the kill switch is
disabled, `check_order` appends exactly one risk-result event after
`RISK_CHECK_STARTED` — `RISK_CHECK_PASSED` iff the accumulated violation
list is empty, else `RISK_CHECK_FAILED` — so per order the count of
`RISK_CHECK_STARTED` equals the count of `RISK_CHECK_PASSED` plus
`RISK_CHECK_FAILED`, each at most 1.  (With the kill switch enabled only
`RISK_CHECK_STARTED` is appended: see the counterexample.) -/
theorem c2_risk_result_event (s : RiskState) (o : Order) (d : Int)
    (h : s.config.kill_switch_enabled = false) :
    (checkOrder s o d).events =
      [EventType.RISK_CHECK_STARTED,
       if (checkOrder s o d).result.passed then EventType.RISK_CHECK_PASSED
       else EventType.RISK_CHECK_FAILED] ∧
    ((checkOrder s o d).result.passed = true ↔
      (checkOrder s o d).result.violations = []) ∧
    (checkOrder s o d).events.count EventType.RISK_CHECK_STARTED = 1 ∧
    (checkOrder s o d).events.count EventType.RISK_CHECK_PASSED +
      (checkOrder s o d).events.count EventType.RISK_CHECK_FAILED = 1 := by
  rw [checkOrder_off_eq s o d h]
  by_cases hv : (checkViolations s o d).isEmpty <;>
    simp_all [List.isEmpty_iff, List.count_cons, List.count_nil]

/-- C2 amended-claim witness at a concrete passing input. -/
theorem c2_risk_result_event_witness :
    sOff.config.kill_switch_enabled = false ∧
    (checkOrder sOff oC2 0).events =
      [EventType.RISK_CHECK_STARTED,
       if (checkOrder sOff oC2 0).result.passed then EventType.RISK_CHECK_PASSED
       else EventType.RISK_CHECK_FAILED] :=
  ⟨rfl, (c2_risk_result_event sOff oC2 0 rfl).1⟩

/-- C3 (status: confirmed).  With the kill switch enabled, `check_order`
returns `passed = false`, violations exactly `[KILL_SWITCH_ACTIVE]` and the
fixed message, for every order, every state and every configured limits —
no further limit check contributes a violation. -/
theorem c3_kill_switch_short_circuit (s : RiskState) (o : Order) (d : Int)
    (h : s.config.kill_switch_enabled = true) :
    (checkOrder s o d).result.passed = false ∧
    (checkOrder s o d).result.violations = [RiskViolationType.KILL_SWITCH_ACTIVE] ∧
    (checkOrder s o d).result.message =
      "Kill switch is active - all trading halted" := by
  rw [checkOrder_kill_eq s o d h]
  exact ⟨rfl, rfl, rfl⟩

/-- C3 witness at a concrete input. -/
theorem c3_kill_switch_short_circuit_witness :
    sC2.config.kill_switch_enabled = true ∧
    (checkOrder sC2 oC2 0).result.passed = false ∧
    (checkOrder sC2 oC2 0).result.violations = [RiskViolationType.KILL_SWITCH_ACTIVE] ∧
    (checkOrder sC2 oC2 0).result.message =
      "Kill switch is active - all trading halted" :=
  ⟨rfl, c3_kill_switch_short_circuit sC2 oC2 0 rfl⟩

/-- Looking up a freshly appended key. -/
theorem lookupPos_append_self (ps : List (String × Position)) (sym : String)
    (p : Position) (h : lookupPos ps sym = none) :
    lookupPos (ps ++ [(sym, p)]) sym = some p := by
  induction ps with
  | nil => simp [lookupPos]
  | cons kv t ih =>
    by_cases hk : kv.1 = sym
    · simp [lookupPos, hk] at h
    · simp only [lookupPos, if_neg hk] at h
      simp only [List.cons_append, lookupPos, if_neg hk]
      exact ih h

/-- Looking up a key just overwritten by `setPos`. -/
theorem lookupPos_setPos_self (ps : List (String × Position)) (sym : String)
    (p : Position) (h : lookupPos ps sym ≠ none) :
    lookupPos (setPos ps sym p) sym = some p := by
  induction ps with
  | nil => simp [lookupPos] at h
  | cons kv t ih =>
    by_cases hk : kv.1 = sym
    · simp [setPos, lookupPos, hk]
    · simp only [lookupPos, if_neg hk] at h
      simp only [setPos, List.map_cons, if_neg hk, lookupPos]
      exact ih h

/-- Splitting the daily-volume component of `check_order`. -/
theorem checkOrder_state_daily_volume (s : RiskState) (o : Order) (d : Int) :
    (checkOrder s o d).state.daily_volume =
      (resetDailyVolumeIfNeeded s d).daily_volume := by
  simp only [checkOrder]
  split <;> rfl

/-- The state returned by `get_metrics` is the reset state. -/
theorem getMetrics_fst (s : RiskState) (d : Int) :
    (getMetrics s d).1 = resetDailyVolumeIfNeeded s d := rfl

/-- Method `update_position` adds the order's notional to `daily_volume`. -/
theorem updatePosition_daily_volume (s : RiskState) (o : Order) :
    (updatePosition s o).daily_volume = s.daily_volume + o.notional_value := rfl

/-- Method `update_position` never touches the reset marker. -/
theorem updatePosition_daily_volume_reset (s : RiskState) (o : Order) :
    (updatePosition s o).daily_volume_reset = s.daily_volume_reset := rfl

/-- The projected dict computed by the source equals the spec's projection. -/
theorem calcProjected_snd (ps : List (String × Position)) (o : Order) :
    (calcProjectedPositions ps o).2 = projectedPositionsSpec ps o := by
  unfold calcProjectedPositions projectedPositionsSpec
  rcases h : lookupPos ps o.symbol with _ | p <;> simp [h]

/-- Characterisation of the position stored for the order's symbol after
`update_position`. -/
theorem updatePosition_lookup (s : RiskState) (o : Order) :
    lookupPos (updatePosition s o).positions o.symbol = some
      (if (currentPosition s o).quantity + quantityDelta o ≠ 0 then
        { currentPosition s o with
          quantity := (currentPosition s o).quantity + quantityDelta o,
          average_price := ((currentPosition s o).quantity *
              (currentPosition s o).average_price +
              quantityDelta o * (o.executed_price.getD 0)) /
            ((currentPosition s o).quantity + quantityDelta o) }
      else { currentPosition s o with quantity := 0, average_price := 0 }) := by
  rcases hl : lookupPos s.positions o.symbol with _ | p
  · have hcur : currentPosition s o =
        { symbol := o.symbol, quantity := 0, average_price := 0, realized_pnl := 0 } := by
      simp [currentPosition, hl]
    have hfresh := lookupPos_append_self s.positions o.symbol
      { symbol := o.symbol, quantity := 0, average_price := 0, realized_pnl := 0 } hl
    rw [hcur]
    simp only [updatePosition, hl, hfresh, Option.getD_some]
    rw [lookupPos_setPos_self _ _ _ (by rw [hfresh]; exact fun hc => Option.noConfusion hc)]
  · have hcur : currentPosition s o = p := by simp [currentPosition, hl]
    rw [hcur]
    simp only [updatePosition, hl, Option.getD_some]
    rw [lookupPos_setPos_self _ _ _ (by rw [hl]; exact fun hc => Option.noConfusion hc)]

/-- C6 (status: confirmed).  `update_position` applies the signed delta
(`+executed_quantity` for BUY, `-executed_quantity` for SELL) to the
symbol's position: when `quantity + delta` is nonzero the new average is
the volume-weighted formula and the quantity becomes the sum; when it is
zero the position goes flat; and `daily_volume` grows by
`quantity * price` (the limit price, not the executed price). -/
theorem c6_update_position_settlement (s : RiskState) (o : Order) (ep : ℚ)
    (hep : o.executed_price = some ep) :
    ((currentPosition s o).quantity + quantityDelta o ≠ 0 →
      lookupPos (updatePosition s o).positions o.symbol = some
        { symbol := (currentPosition s o).symbol,
          quantity := (currentPosition s o).quantity + quantityDelta o,
          average_price := ((currentPosition s o).quantity *
              (currentPosition s o).average_price + quantityDelta o * ep) /
            ((currentPosition s o).quantity + quantityDelta o),
          realized_pnl := (currentPosition s o).realized_pnl }) ∧
    ((currentPosition s o).quantity + quantityDelta o = 0 →
      lookupPos (updatePosition s o).positions o.symbol = some
        { symbol := (currentPosition s o).symbol, quantity := 0, average_price := 0,
          realized_pnl := (currentPosition s o).realized_pnl }) ∧
    (updatePosition s o).daily_volume = s.daily_volume + o.quantity * o.price := by
  have hch := updatePosition_lookup s o
  rw [hep] at hch
  simp only [Option.getD_some] at hch
  refine ⟨?_, ?_, rfl⟩ <;> intro hz
  · rw [hch, if_pos hz]
  · rw [hch, if_neg (not_not_intro hz)]

/-- C6 witness: a SELL fill of 40 at 12 against no prior position goes to
quantity `-40` at average price 12. -/
theorem c6_update_position_settlement_witness :
    oC6.executed_price = some 12 ∧
    ((currentPosition sOff oC6).quantity + quantityDelta oC6 ≠ 0 →
      lookupPos (updatePosition sOff oC6).positions oC6.symbol = some
        { symbol := (currentPosition sOff oC6).symbol,
          quantity := (currentPosition sOff oC6).quantity + quantityDelta oC6,
          average_price := ((currentPosition sOff oC6).quantity *
              (currentPosition sOff oC6).average_price + quantityDelta oC6 * 12) /
            ((currentPosition sOff oC6).quantity + quantityDelta oC6),
          realized_pnl := (currentPosition sOff oC6).realized_pnl }) :=
  ⟨rfl, (c6_update_position_settlement sOff oC6 12 rfl).1⟩

/-- C7 (status: confirmed).  With the kill switch disabled, `check_order`
evaluates all four limit checks without short-circuiting and flags exactly
the claimed violations, with net and gross exposure computed over the
positions projected per the spec (signed order quantity added to its
symbol at the symbol's current average price, a new symbol at price 0). -/
theorem c7_limit_checks (s : RiskState) (o : Order) (d : Int)
    (h : s.config.kill_switch_enabled = false) :
    (checkOrder s o d).result.violations =
      (if s.config.max_position_size < o.notional_value
        then [RiskViolationType.POSITION_LIMIT] else []) ++
      (if s.config.max_daily_volume <
          (resetDailyVolumeIfNeeded s d).daily_volume + o.notional_value
        then [RiskViolationType.DAILY_VOLUME_LIMIT] else []) ++
      (if s.config.max_net_exposure <
          abs (netExposure (projectedPositionsSpec s.positions o))
        then [RiskViolationType.NET_EXPOSURE_LIMIT] else []) ++
      (if s.config.max_gross_exposure <
          grossExposure (projectedPositionsSpec s.positions o)
        then [RiskViolationType.GROSS_EXPOSURE_LIMIT] else []) ∧
    (RiskViolationType.POSITION_LIMIT ∈ (checkOrder s o d).result.violations ↔
      s.config.max_position_size < o.notional_value) ∧
    (RiskViolationType.DAILY_VOLUME_LIMIT ∈ (checkOrder s o d).result.violations ↔
      s.config.max_daily_volume <
        (resetDailyVolumeIfNeeded s d).daily_volume + o.notional_value) ∧
    (RiskViolationType.NET_EXPOSURE_LIMIT ∈ (checkOrder s o d).result.violations ↔
      s.config.max_net_exposure <
        abs (netExposure (projectedPositionsSpec s.positions o))) ∧
    (RiskViolationType.GROSS_EXPOSURE_LIMIT ∈ (checkOrder s o d).result.violations ↔
      s.config.max_gross_exposure <
        grossExposure (projectedPositionsSpec s.positions o)) := by
  have hv : (checkOrder s o d).result.violations =
      (if s.config.max_position_size < o.notional_value
        then [RiskViolationType.POSITION_LIMIT] else []) ++
      (if s.config.max_daily_volume <
          (resetDailyVolumeIfNeeded s d).daily_volume + o.notional_value
        then [RiskViolationType.DAILY_VOLUME_LIMIT] else []) ++
      (if s.config.max_net_exposure <
          abs (netExposure (projectedPositionsSpec s.positions o))
        then [RiskViolationType.NET_EXPOSURE_LIMIT] else []) ++
      (if s.config.max_gross_exposure <
          grossExposure (projectedPositionsSpec s.positions o)
        then [RiskViolationType.GROSS_EXPOSURE_LIMIT] else []) := by
    rw [checkOrder_off_eq s o d h]
    simp only [checkViolations, resetDaily_config, resetDaily_positions,
      calcProjected_snd]
  refine ⟨hv, ?_, ?_, ?_, ?_⟩ <;> rw [hv] <;>
    by_cases h1 : s.config.max_position_size < o.notional_value <;>
    by_cases h2 : s.config.max_daily_volume <
      (resetDailyVolumeIfNeeded s d).daily_volume + o.notional_value <;>
    by_cases h3 : s.config.max_net_exposure <
      abs (netExposure (projectedPositionsSpec s.positions o)) <;>
    by_cases h4 : s.config.max_gross_exposure <
      grossExposure (projectedPositionsSpec s.positions o) <;>
    simp [h1, h2, h3, h4]

/-- C7 witness: with default limits and empty positions, the sample order
trips no limit, so every membership iff instantiates to a concrete
falsehood on both sides. -/
theorem c7_limit_checks_witness :
    sOff.config.kill_switch_enabled = false ∧
    (RiskViolationType.POSITION_LIMIT ∈ (checkOrder sOff oC1 0).result.violations ↔
      sOff.config.max_position_size < oC1.notional_value) :=
  ⟨rfl, (c7_limit_checks sOff oC1 0 rfl).2.1⟩

/-- C8 (status: corrected), counterexample.  `update_position` never calls
`_reset_daily_volume_if_needed` (it takes no clock at all), so performed as
the first operation of a new UTC day (here: reset marker at day 0, the call
happening on a later day) it does not reset `daily_volume` to zero: from a
carried-over volume of 5 it produces 5 + 6 = 11. -/
theorem c8_counterexample :
    sC8.daily_volume = 5 ∧ sC8.daily_volume_reset = 0 ∧
    (updatePosition sC8 oC8).daily_volume = 11 ∧
    (updatePosition sC8 oC8).daily_volume_reset = 0 := by
  refine ⟨rfl, rfl, ?_, rfl⟩
  rw [updatePosition_daily_volume]
  norm_num [sC8, oC8, Order.notional_value]

/-- C8 (status: corrected), amended claim: `daily_volume` is monotonically
non-decreasing within a UTC day (no operation decreases it while the day
has not advanced past the reset marker), and it resets to zero at the first
`check_order` or `get_metrics` of a new UTC day; `update_position` never
triggers the reset and always adds the order's notional. -/
theorem c8_daily_volume_behaviour (s : RiskState) (o : Order) (d : Int)
    (hq : 0 ≤ o.quantity) (hp : 0 ≤ o.price) :
    (¬ s.daily_volume_reset < d →
      (checkOrder s o d).state.daily_volume = s.daily_volume) ∧
    (¬ s.daily_volume_reset < d →
      ((getMetrics s d).1).daily_volume = s.daily_volume) ∧
    s.daily_volume ≤ (updatePosition s o).daily_volume ∧
    (s.daily_volume_reset < d → (checkOrder s o d).state.daily_volume = 0) ∧
    (s.daily_volume_reset < d → ((getMetrics s d).1).daily_volume = 0) ∧
    (updatePosition s o).daily_volume = s.daily_volume + o.notional_value ∧
    (updatePosition s o).daily_volume_reset = s.daily_volume_reset := by
  refine ⟨?_, ?_, ?_, ?_, ?_, updatePosition_daily_volume s o,
    updatePosition_daily_volume_reset s o⟩
  · intro hd
    rw [checkOrder_state_daily_volume, resetDaily_daily_volume, if_neg hd]
  · intro hd
    rw [getMetrics_fst, resetDaily_daily_volume, if_neg hd]
  · rw [updatePosition_daily_volume]
    have hn : 0 ≤ o.notional_value := mul_nonneg hq hp
    exact le_add_of_nonneg_right hn
  · intro hd
    rw [checkOrder_state_daily_volume, resetDaily_daily_volume, if_pos hd]
  · intro hd
    rw [getMetrics_fst, resetDaily_daily_volume, if_pos hd]

/-- C8 amended-claim witness at a concrete input. -/
theorem c8_daily_volume_behaviour_witness :
    (0 : ℚ) ≤ oC8.quantity ∧ (0 : ℚ) ≤ oC8.price ∧
    sC8.daily_volume ≤ (updatePosition sC8 oC8).daily_volume :=
  ⟨by norm_num [oC8], by norm_num [oC8],
   (c8_daily_volume_behaviour sC8 oC8 1 (by norm_num [oC8])
     (by norm_num [oC8])).2.2.1⟩

/-- C9 (status: corrected), counterexample.  For a failed check the source
message is `"Risk violations: "` followed by the joined names — not the
joined names alone as claimed: with exactly `POSITION_LIMIT` flagged the
message is `"Risk violations: POSITION_LIMIT"`, which differs from
`"POSITION_LIMIT"`. -/
theorem c9_counterexample :
    (checkOrder sC9 oC9 0).result.passed = false ∧
    (checkOrder sC9 oC9 0).result.violations = [RiskViolationType.POSITION_LIMIT] ∧
    (checkOrder sC9 oC9 0).result.message = "Risk violations: POSITION_LIMIT" ∧
    (checkOrder sC9 oC9 0).result.message ≠
      String.intercalate ", "
        ((checkOrder sC9 oC9 0).result.violations.map RiskViolationType.value) := by
  have h1 : (checkOrder sC9 oC9 0).result.violations =
      [RiskViolationType.POSITION_LIMIT] := by
    norm_num [checkOrder, sC9, oC9, resetDailyVolumeIfNeeded, calcProjectedPositions,
      lookupPos, setPos, netExposure, grossExposure, Order.notional_value]
  have h2 : (checkOrder sC9 oC9 0).result.message =
      "Risk violations: POSITION_LIMIT" := by
    norm_num [checkOrder, sC9, oC9, resetDailyVolumeIfNeeded, calcProjectedPositions,
      lookupPos, setPos, netExposure, grossExposure, Order.notional_value,
      RiskViolationType.value, String.intercalate, String.intercalate.go]
    rfl
  have h0 : (checkOrder sC9 oC9 0).result.passed = false := by
    norm_num [checkOrder, sC9, oC9, resetDailyVolumeIfNeeded, calcProjectedPositions,
      lookupPos, setPos, netExposure, grossExposure, Order.notional_value]
  refine ⟨h0, h1, h2, ?_⟩
  rw [h1, h2]
  decide

/-- C9 (status: corrected), amended claim: for every failed risk check with
the kill switch disabled, the message is `"Risk violations: "` followed by
the violation kind names joined with `", "`, and this message is exactly
what the rejected submission response carries. -/
theorem c9_rejection_message (st : ExecState) (risk : RiskState) (req : OrderRequest)
    (uid oid cid : String) (d : Int)
    (hks : risk.config.kill_switch_enabled = false)
    (hdup : generateExecutionKey req uid ∉ st.execution_keys)
    (hfail : (checkOrder risk
      { mkOrder req uid oid cid with status := OrderStatus.RISK_CHECK } d).result.passed
        = false) :
    (checkOrder risk
        { mkOrder req uid oid cid with status := OrderStatus.RISK_CHECK } d).result.message
      = "Risk violations: " ++ String.intercalate ", "
        (((checkOrder risk
          { mkOrder req uid oid cid with status := OrderStatus.RISK_CHECK } d).result.violations).map
            RiskViolationType.value) ∧
    (submitOrder st risk req uid oid cid d).response =
      Except.ok { order_id := oid, status := OrderStatus.REJECTED,
                  correlation_id := cid,
                  message := some (checkOrder risk
                    { mkOrder req uid oid cid with
                      status := OrderStatus.RISK_CHECK } d).result.message } := by
  constructor
  · rw [checkOrder_off_eq _ _ _ hks] at hfail ⊢
    simp only [Bool.not_eq_true] at hfail
    simp [hfail]
  · simp only [submitOrder, if_neg hdup, hfail]
    simp

/-- C9 amended-claim witness at a concrete rejected submission. -/
theorem c9_rejection_message_witness :
    sC9.config.kill_switch_enabled = false ∧
    generateExecutionKey reqC9 "u1" ∉ stC4.execution_keys ∧
    (checkOrder sC9
      { mkOrder reqC9 "u1" "o-c9" "cid-c9" with status := OrderStatus.RISK_CHECK } 0).result.passed
        = false ∧
    (submitOrder stC4 sC9 reqC9 "u1" "o-c9" "cid-c9" 0).response =
      Except.ok { order_id := "o-c9", status := OrderStatus.REJECTED,
                  correlation_id := "cid-c9",
                  message := some (checkOrder sC9
                    { mkOrder reqC9 "u1" "o-c9" "cid-c9" with
                      status := OrderStatus.RISK_CHECK } 0).result.message } := by
  have hpf : (checkOrder sC9
      { mkOrder reqC9 "u1" "o-c9" "cid-c9" with status := OrderStatus.RISK_CHECK } 0).result.passed
        = false := by
    norm_num [checkOrder, sC9, reqC9, mkOrder, resetDailyVolumeIfNeeded,
      calcProjectedPositions, lookupPos, setPos, netExposure, grossExposure,
      Order.notional_value]
  exact ⟨rfl, by simp [stC4], hpf,
    (c9_rejection_message stC4 sC9 reqC9 "u1" "o-c9" "cid-c9" 0 rfl
      (by simp [stC4]) hpf).2⟩

/-- A submission whose fingerprint is already present changes nothing and
reports the 409 conflict. -/
theorem submitOrder_duplicate (st : ExecState) (risk : RiskState) (req : OrderRequest)
    (uid oid cid : String) (d : Int)
    (h : generateExecutionKey req uid ∈ st.execution_keys) :
    submitOrder st risk req uid oid cid d =
      { exec := st, risk := risk, events := [], response := Except.error () } := by
  simp only [submitOrder, if_pos h]

/-- A non-duplicate submission records its key at the front of the
idempotency set. -/
theorem submitOrder_keys (st : ExecState) (risk : RiskState) (req : OrderRequest)
    (uid oid cid : String) (d : Int)
    (h : generateExecutionKey req uid ∉ st.execution_keys) :
    (submitOrder st risk req uid oid cid d).exec.execution_keys =
      generateExecutionKey req uid :: st.execution_keys := by
  simp only [submitOrder, if_neg h]
  split <;> rfl

/-- A non-duplicate submission appends exactly one order carrying the
request's fingerprint fields. -/
theorem submitOrder_count (st : ExecState) (risk : RiskState) (req : OrderRequest)
    (uid oid cid : String) (d : Int)
    (h : generateExecutionKey req uid ∉ st.execution_keys) :
    countFingerprint (submitOrder st risk req uid oid cid d).exec.orders req uid =
      countFingerprint st.orders req uid + 1 := by
  simp only [countFingerprint]
  simp only [submitOrder, if_neg h]
  split <;> simp [List.filter_append, mkOrder]

/-- C4 (status: confirmed).  Two submissions with the same
`(user_id, symbol, side, quantity, price, client_order_id)`: the second
fails with the 409 duplicate error before any order or event is created —
engine state, risk state, order table and event log are exactly as after
the first call — and the store holds exactly one order for that
fingerprint. -/
theorem c4_duplicate_submission (st : ExecState) (risk : RiskState)
    (req : OrderRequest) (uid oid1 cid1 oid2 cid2 : String) (d1 d2 : Int)
    (out1 out2 : SubmitOutcome)
    (h1 : generateExecutionKey req uid ∉ st.execution_keys)
    (h2 : countFingerprint st.orders req uid = 0)
    (e1 : submitOrder st risk req uid oid1 cid1 d1 = out1)
    (e2 : submitOrder out1.exec out1.risk req uid oid2 cid2 d2 = out2) :
    out2.response = Except.error () ∧
    out2.exec = out1.exec ∧
    out2.risk = out1.risk ∧
    out2.events = [] ∧
    countFingerprint out1.exec.orders req uid = 1 := by
  subst e1
  have hmem : generateExecutionKey req uid ∈
      (submitOrder st risk req uid oid1 cid1 d1).exec.execution_keys := by
    rw [submitOrder_keys st risk req uid oid1 cid1 d1 h1]
    exact List.mem_cons_self _ _
  rw [submitOrder_duplicate _ _ _ _ _ _ _ hmem] at e2
  subst e2
  refine ⟨rfl, rfl, rfl, rfl, ?_⟩
  rw [submitOrder_count st risk req uid oid1 cid1 d1 h1, h2]

/-- C4 witness: a concrete duplicate pair against empty engine state. -/
theorem c4_duplicate_submission_witness :
    generateExecutionKey reqC4 "u1" ∉ stC4.execution_keys ∧
    countFingerprint stC4.orders reqC4 "u1" = 0 ∧
    (submitOrder (submitOrder stC4 sOff reqC4 "u1" "oid1" "cid1" 0).exec
        (submitOrder stC4 sOff reqC4 "u1" "oid1" "cid1" 0).risk
        reqC4 "u1" "oid2" "cid2" 0).response = Except.error () ∧
    countFingerprint
      (submitOrder stC4 sOff reqC4 "u1" "oid1" "cid1" 0).exec.orders reqC4 "u1" = 1 := by
  have h := c4_duplicate_submission stC4 sOff reqC4 "u1" "oid1" "cid1" "oid2" "cid2"
    0 0 _ _ (by simp [stC4]) rfl rfl rfl
  exact ⟨by simp [stC4], rfl, h.1, h.2.2.2.2⟩

/-- The execution body when all three attempts fail. -/
theorem execBody_all_fail (b : BreakerState) (r : RiskState) (o : Order) (now : Int)
    (f : Nat → Bool) (j : ℚ)
    (h0 : f 0 = false) (h1 : f 1 = false) (h2 : f 2 = false) :
    execBody b r o now f j =
      { breaker := if CIRCUIT_BREAKER_THRESHOLD ≤ b.failures + 1 then
            { failures := b.failures + 1,
              openUntil := some (now + CIRCUIT_BREAKER_TIMEOUT) }
          else { failures := b.failures + 1, openUntil := b.openUntil },
        risk := r,
        order := { o with status := OrderStatus.FAILED,
                          retry_count := o.retry_count + 1 + 1 + 1,
                          rejection_reason := some "Execution failed after 3 attempts" },
        events := [EventType.EXECUTION_STARTED, EventType.EXECUTION_FAILED] } := by
  simp only [execBody, MAX_RETRY_ATTEMPTS, show List.range 3 = [0, 1, 2] from rfl,
    runAttempts, h0, h1, h2]
  simp only [List.isEmpty, Bool.false_eq_true, if_false, if_true]

/-- C5 (status: confirmed).  Background execution never runs while the
circuit breaker is open: while `now < open_until` the order goes to
`FAILED` with reason "Circuit breaker open" and no `EXECUTION_*` events
are appended (nothing else changes); once `now ≥ open_until` the breaker
is reset (failure counter zero, `open_until` cleared) before execution
proceeds; and on a final failure the breaker opens until `now + 60`
exactly when the consecutive-failure counter reaches the threshold 5. -/
theorem c5_circuit_breaker (b : BreakerState) (r : RiskState) (o : Order)
    (now t : Int) (f : Nat → Bool) (j : ℚ) :
    (b.openUntil = some t → now < t →
      executeOrder b r o now f j =
        { breaker := b, risk := r,
          order := { o with status := OrderStatus.FAILED,
                            rejection_reason := some "Circuit breaker open" },
          events := [] }) ∧
    (b.openUntil = some t → t ≤ now →
      executeOrder b r o now f j =
        execBody { failures := 0, openUntil := none } r o now f j) ∧
    (b.openUntil = none → f 0 = false → f 1 = false → f 2 = false →
      ((executeOrder b r o now f j).breaker.failures = b.failures + 1 ∧
       (executeOrder b r o now f j).breaker.openUntil =
         (if CIRCUIT_BREAKER_THRESHOLD ≤ b.failures + 1
          then some (now + CIRCUIT_BREAKER_TIMEOUT) else none) ∧
       (b.failures + 1 < CIRCUIT_BREAKER_THRESHOLD →
         (executeOrder b r o now f j).breaker.openUntil = none) ∧
       (b.failures + 1 = CIRCUIT_BREAKER_THRESHOLD →
         (executeOrder b r o now f j).breaker.openUntil =
           some (now + CIRCUIT_BREAKER_TIMEOUT)))) := by
  refine ⟨?_, ?_, ?_⟩
  · intro h hlt
    simp only [executeOrder, h]
    rw [if_pos hlt]
  · intro h hle
    simp only [executeOrder, h]
    rw [if_neg (not_lt.mpr hle)]
  · intro hnone h0 h1 h2
    have he : executeOrder b r o now f j = execBody b r o now f j := by
      simp only [executeOrder, hnone]
    rw [he, execBody_all_fail b r o now f j h0 h1 h2]
    refine ⟨?_, ?_, ?_, ?_⟩
    · by_cases hth : CIRCUIT_BREAKER_THRESHOLD ≤ b.failures + 1 <;> simp [hth]
    · by_cases hth : CIRCUIT_BREAKER_THRESHOLD ≤ b.failures + 1 <;>
        simp [hth, hnone]
    · intro hlt
      have hth : ¬ CIRCUIT_BREAKER_THRESHOLD ≤ b.failures + 1 := not_le.mpr hlt
      simp [hth, hnone]
    · intro heq
      have hth : CIRCUIT_BREAKER_THRESHOLD ≤ b.failures + 1 := le_of_eq heq.symm
      simp [hth]

/-- C5 witness: an open breaker (until 100) blocks an execution at `now =
50`, and an all-fail run from 4 prior failures opens the breaker until
`now + 60`. -/
theorem c5_circuit_breaker_witness :
    ({ failures := 1, openUntil := some 100 } : BreakerState).openUntil = some 100 ∧
    (50 : Int) < 100 ∧
    executeOrder { failures := 1, openUntil := some 100 } sOff oC5 50
        (fun _ => false) 0 =
      { breaker := { failures := 1, openUntil := some 100 }, risk := sOff,
        order := { oC5 with status := OrderStatus.FAILED,
                            rejection_reason := some "Circuit breaker open" },
        events := [] } ∧
    (executeOrder { failures := 4, openUntil := none } sOff oC5 50
        (fun _ => false) 0).breaker.openUntil = some (50 + 60) :=
  ⟨rfl, by decide,
   (c5_circuit_breaker { failures := 1, openUntil := some 100 } sOff oC5 50 100
     (fun _ => false) 0).1 rfl (by decide),
   (c5_circuit_breaker { failures := 4, openUntil := none } sOff oC5 50 0
     (fun _ => false) 0).2.2 rfl rfl rfl rfl |>.2.2.2 rfl⟩

/-- C10 (status: confirmed).  `check_permission` is total only on the four
known role strings: any other role string (including a missing/`None` role
claim) makes the `UserRole(user_role)` conversion raise an uncaught
`ValueError` instead of denying access, and the `role_hierarchy.get(_, 0)`
level-0 fallback is unreachable because every `UserRole` member is a key of
the hierarchy. -/
theorem c10_check_permission_unknown_role (s : Option String) (r : UserRole)
    (h1 : s ≠ some "TRADER") (h2 : s ≠ some "RISK_MANAGER")
    (h3 : s ≠ some "COMPLIANCE") (h4 : s ≠ some "ADMIN") :
    checkPermission s r = Except.error () ∧
    (∀ ur : UserRole, (roleLevel ur).isSome = true) := by
  constructor
  · have hnone : userRoleOfString s = none := by
      rcases s with _ | str
      · rfl
      · simp only [userRoleOfString]
    simp [checkPermission, hnone]
  · intro ur
    cases ur <;> rfl

/-- C10 witness: the unknown role string "INTERN". -/
theorem c10_check_permission_unknown_role_witness :
    (some "INTERN" : Option String) ≠ some "TRADER" ∧
    (some "INTERN" : Option String) ≠ some "RISK_MANAGER" ∧
    (some "INTERN" : Option String) ≠ some "COMPLIANCE" ∧
    (some "INTERN" : Option String) ≠ some "ADMIN" ∧
    checkPermission (some "INTERN") UserRole.TRADER = Except.error () :=
  ⟨by decide, by decide, by decide, by decide,
   (c10_check_permission_unknown_role (some "INTERN") UserRole.TRADER
     (by decide) (by decide) (by decide) (by decide)).1⟩

end ITIRP
